import Mathlib

/-!
Shallow embedding of `src/app.py` (the genpost article-generation pipeline).

The program is a FastAPI service with two core functions:
* `get_recent_news(topic)` — calls the Currents API and reduces the JSON
  response to a newline-joined digest of up to five headline titles;
* `generate_content(topic)` — calls `get_recent_news` once and then makes
  three sequential chat-completion calls (title, meta-description, body).

External effects are modelled explicitly: the single news HTTP call is an
`HttpOutcome` argument, and the text-generation service is a function from
the request the code builds (`GenRequest`) to an outcome (`GenOutcome`).
`generate_content` additionally returns the list of generation requests it
issued, in order, so that claims about which calls are made (and with which
prompts and parameters) can be stated.  Raised Python exceptions become
explicit error values: `fastapi.HTTPException(500, detail)` becomes
`PyError.httpException 500 detail`, and an uncaught `KeyError` from
`article["title"]` becomes `PyError.keyError`.
-/

namespace GenPost

/-- A single-quote character (U+0027), used inside the prompt strings of
`src/app.py` around the interpolated topic and title. -/
def sq : String := Char.toString (Char.ofNat 39)

/-- One item of the Currents API response list.  Only the `"title"` field is
read by the program; `title?` is `none` when the JSON object has no
`"title"` key (in which case `article["title"]` raises `KeyError`). -/
structure NewsItem where
  title? : Option String
deriving Repr, DecidableEq

/-- The shape of the `"news"` entry of the JSON body of a news response:
the key can be missing, can be JSON `null`, or can hold a list of items.
`response.json().get("news", [])` (app.py line 49) maps `missing` to the
default `[]`, `null` to Python `None`, and `items xs` to `xs`; the
following `if not news_data` test is true exactly for `None` and `[]`. -/
inductive NewsField where
  | missing
  | null
  | items (xs : List NewsItem)
deriving Repr, DecidableEq

/-- Outcome of the single `requests.get` call in `get_recent_news`
(app.py line 42): either an HTTP response with a status code, a parsed
JSON `"news"` field and a raw text, or a raised `requests.RequestException`
(timeout, connection error, ...). -/
inductive HttpOutcome where
  | response (status : Nat) (body : NewsField) (text : String)
  | requestException (msg : String)
deriving Repr, DecidableEq

/-- Result of `get_recent_news` (app.py lines 33–60): a returned digest
string, a raised `HTTPException(500, detail)`, or an uncaught `KeyError`
escaping from the title list comprehension (line 54) — a `KeyError` is not
a `requests.RequestException`, so the `except` clause does not catch it. -/
inductive NewsResult where
  | ok (digest : String)
  | httpError (detail : String)
  | keyError
deriving Repr, DecidableEq

/-- The sentinel digest returned when no news is found (app.py line 52). -/
def NO_NEWS_SENTINEL : String := "Свежих новостей не найдено."

/-- The query parameters of the outbound Currents API request, exactly as
built in app.py lines 35–39: language fixed to `"ru"`, `keywords` set to
the topic, and the API key.  No other parameter is sent. -/
def newsRequestParams (topic apiKey : String) : List (String × String) :=
  [("language", "ru"), ("keywords", topic), ("apiKey", apiKey)]

/-- The URL of the Currents API endpoint (app.py line 34). -/
def NEWS_URL : String := "https://api.currentsapi.services/v1/latest-news"

/-- `[article["title"] for article in l]`: `some` of the list of titles when
every item has one, `none` (a raised `KeyError`) as soon as one lacks it. -/
def extractTitles : List NewsItem → Option (List String)
  | [] => some []
  | i :: rest =>
    match i.title? with
    | none => none
    | some t => (extractTitles rest).map (fun ts => t :: ts)

/-- Embedding of `get_recent_news` (app.py lines 33–60), as a function of
the outcome of its one HTTP call.  A non-200 status raises
`HTTPException(500, "Ошибка при получении данных: " + response.text)`;
a `requests.RequestException` is caught and re-raised as
`HTTPException(500, "Ошибка запроса к Currents API: " + str(e))`;
otherwise `news_data = response.json().get("news", [])` is tested for
falsiness (`None` or `[]` gives the sentinel) and the titles of the first
five items (`news_data[:5]`) are joined with `"\n"`. -/
def get_recent_news (outcome : HttpOutcome) : NewsResult :=
  match outcome with
  | .requestException e =>
      .httpError ("Ошибка запроса к Currents API: " ++ e)
  | .response status body text =>
      if status ≠ 200 then
        .httpError ("Ошибка при получении данных: " ++ text)
      else
        match body with
        | .missing => .ok NO_NEWS_SENTINEL
        | .null => .ok NO_NEWS_SENTINEL
        | .items [] => .ok NO_NEWS_SENTINEL
        | .items (x :: xs) =>
            match extractTitles ((x :: xs).take 5) with
            | none => .keyError
            | some titles => .ok (String.intercalate "\n" titles)

/-- Outcome of one `client.chat.completions.create` call: the (stripped
later) message content on success, or any raised exception's string. -/
inductive GenOutcome where
  | success (text : String)
  | failure (err : String)
deriving Repr, DecidableEq

/-- One chat-completion request as the code builds it: model name, the
single user message content, `max_tokens`, `temperature`, optional `stop`
markers, optional presence/frequency penalties.  The float-valued sampling
parameters are embedded as rationals. -/
structure GenRequest where
  model : String
  content : String
  max_tokens : Nat
  temperature : ℚ
  stop : Option (List String)
  presence_penalty : Option ℚ
  frequency_penalty : Option ℚ
deriving Repr, DecidableEq

/-- The user-message content of the title request (app.py line 74). -/
def titlePrompt (topic recent_news : String) : String :=
  "Придумайте привлекательный и точный заголовок для статьи на тему " ++ sq ++
    topic ++ sq ++ ", с учётом актуальных новостей:\n" ++ recent_news ++
    ". Заголовок должен быть интересным и ясно передавать суть темы."

/-- The user-message content of the meta-description request (app.py
line 88); its only non-constant input is the generated title. -/
def metaPrompt (title : String) : String :=
  "Напишите мета-описание для статьи с заголовком: " ++ sq ++ title ++ sq ++
    ". Оно должно быть полным, информативным и содержать основные ключевые слова."

/-- The user-message content of the body request (app.py lines 102–112);
its only non-constant inputs are the topic and the news digest. -/
def contentPrompt (topic recent_news : String) : String :=
  "Ты профессиональный журналист, который пишет глубокии и интересные статьи.\n" ++
  "                Напишите подробную статью на тему " ++ sq ++ topic ++ sq ++
  ", используя последние новости:\n" ++ recent_news ++ ". \n" ++
  "                Статья должна быть:\n" ++
  "                1. Информативной и логичной\n" ++
  "                2. Содержать не менее 2000 символов\n" ++
  "                3. Иметь четкую структуру с подзаголовками\n" ++
  "                4. Включать анализ текущих трендов\n" ++
  "                5. Иметь вступление, основную часть и заключение\n" ++
  "                6. Включать примеры из актуальных новостей\n" ++
  "                7. Каждый абзац должен быть не менее 3-4 предложений\n" ++
  "                8. Текст должен быть легким для восприятия и содержательным"

/-- The step-1 (title) request (app.py lines 70–79): `max_tokens=20`,
`temperature=0.5`, `stop=["\n"]`, no penalties. -/
def titleRequest (topic recent_news : String) : GenRequest :=
  { model := "gpt-4o-mini"
    content := titlePrompt topic recent_news
    max_tokens := 20
    temperature := 1/2
    stop := some ["\n"]
    presence_penalty := none
    frequency_penalty := none }

/-- The step-2 (meta-description) request (app.py lines 84–93):
`max_tokens=60`, `temperature=0.5`, `stop=["."]`, no penalties. -/
def metaRequest (title : String) : GenRequest :=
  { model := "gpt-4o-mini"
    content := metaPrompt title
    max_tokens := 60
    temperature := 1/2
    stop := some ["."]
    presence_penalty := none
    frequency_penalty := none }

/-- The step-3 (body) request (app.py lines 98–118): `max_tokens=2000`,
`temperature=0.3`, `presence_penalty=0.6`, `frequency_penalty=0.6`,
no `stop`. -/
def contentRequest (topic recent_news : String) : GenRequest :=
  { model := "gpt-4o-mini"
    content := contentPrompt topic recent_news
    max_tokens := 2000
    temperature := 3/10
    stop := none
    presence_penalty := some (3/5)
    frequency_penalty := some (3/5) }

/-- Embedding of Python's `str.strip()` with no argument: remove leading
and trailing whitespace characters. -/
def strip (s : String) : String :=
  String.mk (((s.data.dropWhile Char.isWhitespace).reverse.dropWhile Char.isWhitespace).reverse)

/-- The result object of `generate_content` (app.py lines 122–126). -/
structure GeneratedArticle where
  title : String
  meta_description : String
  post_content : String
deriving Repr, DecidableEq

/-- A raised Python exception as the caller of `generate_content` sees it:
a `fastapi.HTTPException` with its status code and detail, or the uncaught
`KeyError` from `get_recent_news`. -/
inductive PyError where
  | httpException (status : Nat) (detail : String)
  | keyError
deriving Repr, DecidableEq

/-- The detail prefix of the `HTTPException` that `generate_content`
raises when any generation step throws (app.py line 130). -/
def GEN_ERROR_PREFIX : String := "Ошибка при генерации контента: "

/-- Embedding of `generate_content` (app.py lines 63–130), as a function
of the generation service `svc` and the outcome of the news HTTP call.
Returns the call's result (returned article or raised exception) together
with the list of generation requests issued, in order.

`get_recent_news` is called before the `try:` block, so an
`HTTPException` or `KeyError` it raises propagates unchanged and no
generation call is made.  Inside the `try:` block the three completion
calls run strictly in sequence; each raw output is stripped
(`.strip()`, embedded as `strip`) before use, and any failure jumps
to `except Exception`, which raises
`HTTPException(500, "Ошибка при генерации контента: " + str(e))`. -/
def generate_content (svc : GenRequest → GenOutcome) (newsOutcome : HttpOutcome)
    (topic : String) : Except PyError GeneratedArticle × List GenRequest :=
  match get_recent_news newsOutcome with
  | .httpError d => (.error (.httpException 500 d), [])
  | .keyError => (.error .keyError, [])
  | .ok recent_news =>
    let req1 := titleRequest topic recent_news
    match svc req1 with
    | .failure e => (.error (.httpException 500 (GEN_ERROR_PREFIX ++ e)), [req1])
    | .success out1 =>
      let title := strip out1
      let req2 := metaRequest title
      match svc req2 with
      | .failure e => (.error (.httpException 500 (GEN_ERROR_PREFIX ++ e)), [req1, req2])
      | .success out2 =>
        let meta_description := strip out2
        let req3 := contentRequest topic recent_news
        match svc req3 with
        | .failure e =>
            (.error (.httpException 500 (GEN_ERROR_PREFIX ++ e)), [req1, req2, req3])
        | .success out3 =>
            (.ok { title := title
                   meta_description := meta_description
                   post_content := strip out3 },
             [req1, req2, req3])

/-- The request body of `POST /generate-post` (app.py lines 29–30). -/
structure Topic where
  topic : String
deriving Repr, DecidableEq

/-- The `/generate-post` handler (app.py lines 133–135): it returns
`generate_content(topic.topic)` unchanged, so the caller receives exactly
the pipeline's result or raised error. -/
def generate_post_api (svc : GenRequest → GenOutcome) (newsOutcome : HttpOutcome)
    (t : Topic) : Except PyError GeneratedArticle × List GenRequest :=
  generate_content svc newsOutcome t.topic

/-- The process environment at startup: the two optional environment
variables read at module import (app.py lines 19–20). -/
structure Env where
  openai_api_key : Option String
  currentsapi_key : Option String
deriving Repr, DecidableEq

/-- Python falsiness of `os.getenv`'s result: `None` (variable absent) and
the empty string are falsy. -/
def pyFalsyStr : Option String → Bool
  | Option.none => true
  | Option.some s => s.isEmpty

/-- Embedding of the module-level startup check (app.py lines 19–24):
`if not openai_api_key or not currentsapi_key: raise ValueError(...)`.
This code runs at import time, before the FastAPI app serves any request,
so an error here means the process refuses to start. -/
def startupCheck (env : Env) : Except String Env :=
  if pyFalsyStr env.openai_api_key || pyFalsyStr env.currentsapi_key then
    .error "Переменные окружения OPENAI_API_KEY и CURRENTS_API_KEY должны быть установлены"
  else
    .ok env

/-! ### Stub services used by witnesses and counterexamples -/

/-- A stub generation service that succeeds on every request, returning a
distinct untrimmed output per step (the three steps are distinguishable by
their `max_tokens`). -/
def stubSvc (r : GenRequest) : GenOutcome :=
  if r.max_tokens = 20 then GenOutcome.success " t1 "
  else if r.max_tokens = 60 then GenOutcome.success " t2 "
  else GenOutcome.success " t3 "

/-- A stub generation service that fails on every request. -/
def failSvc : GenRequest → GenOutcome := fun _ => GenOutcome.failure "сбой"

/-- A stub generation service that fails on the body step only. -/
def failAtBodySvc (r : GenRequest) : GenOutcome :=
  if r.max_tokens = 2000 then GenOutcome.failure "отказ" else stubSvc r

/-- A news item carrying the given title. -/
def item (t : String) : NewsItem := ⟨some t⟩

/-! ### Helper lemmas -/

/-- When every item of `l` has a title, `extractTitles` succeeds and
returns exactly those titles, in order. -/
theorem extractTitles_eq_map (l : List NewsItem)
    (h : ∀ i ∈ l, (i.title?).isSome) :
    extractTitles l = some (l.map (fun i => (i.title?).getD "")) := by
  induction l with
  | nil => rfl
  | cons x xs ih =>
    have hx := h x (by simp)
    obtain ⟨t, ht⟩ := Option.isSome_iff_exists.mp hx
    have hrest : ∀ i ∈ xs, (i.title?).isSome := fun i hi => h i (by simp [hi])
    simp [extractTitles, ht, ih hrest]

/-- As soon as one item of `l` lacks a title, `extractTitles` fails
(a `KeyError` is raised). -/
theorem extractTitles_eq_none (l : List NewsItem)
    (h : ∃ i ∈ l, i.title? = Option.none) :
    extractTitles l = Option.none := by
  induction l with
  | nil => simp at h
  | cons x xs ih =>
    obtain ⟨i, hi, hnone⟩ := h
    rcases List.mem_cons.mp hi with rfl | hmem
    · simp [extractTitles, hnone]
    · cases hx : x.title? with
      | none => simp [extractTitles, hx]
      | some t => simp [extractTitles, hx, ih ⟨i, hmem, hnone⟩]

/-! ### Claim theorems -/

/-- C3: on a 200 response whose item list is empty the lookup returns the
fixed sentinel rather than an error, and on a non-empty list (whose first
five items each have a title) it returns the titles of the first five
items joined with newlines, in the order returned — so for more than five
items only the first five titles are used. -/
theorem C3_success_digest (xs : List NewsItem) (txt : String)
    (hts : ∀ i ∈ xs.take 5, (i.title?).isSome) :
    get_recent_news (HttpOutcome.response 200 (NewsField.items xs) txt) =
      NewsResult.ok (if xs.isEmpty then NO_NEWS_SENTINEL
        else String.intercalate "\n" ((xs.take 5).map (fun i => (i.title?).getD ""))) := by
  cases xs with
  | nil => rfl
  | cons x rest =>
    have h := extractTitles_eq_map ((x :: rest).take 5) hts
    change (match extractTitles ((x :: rest).take 5) with
      | none => NewsResult.keyError
      | some titles => NewsResult.ok (String.intercalate "\n" titles)) = _
    rw [h]
    simp

/-- Witness for C3: six items with titles A…F give the digest of the first
five titles only. -/
theorem C3_success_digest_witness :
    get_recent_news (HttpOutcome.response 200
        (NewsField.items [item "A", item "B", item "C", item "D", item "E", item "F"]) "") =
      NewsResult.ok "A\nB\nC\nD\nE" := by
  have h := C3_success_digest
    [item "A", item "B", item "C", item "D", item "E", item "F"] "" (by decide)
  rw [h]; rfl

/-- C9: a 200 response whose JSON body lacks the `"news"` key, or maps it
to `null` or to an empty list, makes the lookup return the sentinel
string, raising no error — exactly the zero-results behaviour. -/
theorem C9_missing_or_null_news (txt : String) :
    get_recent_news (HttpOutcome.response 200 NewsField.missing txt) =
        NewsResult.ok NO_NEWS_SENTINEL ∧
    get_recent_news (HttpOutcome.response 200 NewsField.null txt) =
        NewsResult.ok NO_NEWS_SENTINEL ∧
    get_recent_news (HttpOutcome.response 200 (NewsField.items []) txt) =
        NewsResult.ok NO_NEWS_SENTINEL :=
  ⟨rfl, rfl, rfl⟩

/-- C10: title extraction is unguarded — if any of the first five items of
a 200 response lacks a `"title"` field, `get_recent_news` raises an
uncaught `KeyError` (not the sentinel, not an `HTTPException`), and the
`KeyError` propagates out of `generate_content` before any generation
call is made. -/
theorem C10_missing_title_raises (xs : List NewsItem) (txt : String)
    (h : ∃ i ∈ xs.take 5, i.title? = Option.none) :
    get_recent_news (HttpOutcome.response 200 (NewsField.items xs) txt) =
        NewsResult.keyError ∧
    ∀ (svc : GenRequest → GenOutcome) (topic : String),
      generate_content svc (HttpOutcome.response 200 (NewsField.items xs) txt) topic =
        (Except.error PyError.keyError, []) := by
  cases xs with
  | nil => simp at h
  | cons x rest =>
    have hn := extractTitles_eq_none ((x :: rest).take 5) h
    have hres : get_recent_news (HttpOutcome.response 200 (NewsField.items (x :: rest)) txt) =
        NewsResult.keyError := by
      change (match extractTitles ((x :: rest).take 5) with
        | none => NewsResult.keyError
        | some titles => NewsResult.ok (String.intercalate "\n" titles)) = _
      rw [hn]
    exact ⟨hres, fun svc topic => by simp [generate_content, hres]⟩

/-- Witness for C10: a single item without a title raises `KeyError`. -/
theorem C10_missing_title_raises_witness :
    get_recent_news (HttpOutcome.response 200 (NewsField.items [⟨Option.none⟩]) "") =
        NewsResult.keyError ∧
    generate_content stubSvc (HttpOutcome.response 200 (NewsField.items [⟨Option.none⟩]) "") "т" =
        (Except.error PyError.keyError, []) := by
  have h := C10_missing_title_raises [⟨Option.none⟩] "" (by decide)
  exact ⟨h.1, h.2 stubSvc "т"⟩

/-- Modelled from the spec: the C5 reading that the top-5 cap "is part of
the request to the provider", i.e. some query parameter of the outbound
news request restricts the result count — it carries the value `"5"` or a
count-limiting key. -/
def requestHasTop5Cap (ps : List (String × String)) : Prop :=
  ∃ kv ∈ ps, kv.2 = "5" ∨ kv.1 = "limit" ∨ kv.1 = "page_size" ∨
    kv.1 = "page_number" ∨ kv.1 = "count" ∨ kv.1 = "top"

/-- C5 counterexample: the outbound request built by `get_recent_news`
for a concrete topic and API key carries no result-count restriction —
none of its parameters has value `"5"` or a count-limiting key; its keys
are exactly `language`, `keywords` and `apiKey`. -/
theorem C5_counterexample :
    ¬ requestHasTop5Cap (newsRequestParams "энергия" "ключ") ∧
    (newsRequestParams "энергия" "ключ").map Prod.fst =
      ["language", "keywords", "apiKey"] := by
  constructor
  · intro hcap
    rcases hcap with ⟨kv, hkv, hc⟩
    revert hc
    fin_cases hkv <;> decide
  · rfl

/-- C5 (amended): the outbound news request fixes the language to the
single locale `"ru"` and passes the topic as the `keywords` parameter, but
contains no result-count parameter; the top-5 cap is applied locally,
after the response arrives, by truncating the returned item list to its
first five elements — so the lookup's result only ever depends on the
first five items. -/
theorem C5_amended_request_shape (topic apiKey : String) :
    newsRequestParams topic apiKey =
      [("language", "ru"), ("keywords", topic), ("apiKey", apiKey)] ∧
    (∀ kv ∈ newsRequestParams topic apiKey,
      kv.1 = "language" ∨ kv.1 = "keywords" ∨ kv.1 = "apiKey") ∧
    (∀ (xs : List NewsItem) (txt : String),
      get_recent_news (HttpOutcome.response 200 (NewsField.items xs) txt) =
        get_recent_news (HttpOutcome.response 200 (NewsField.items (xs.take 5)) txt)) := by
  refine ⟨rfl, ?_, ?_⟩
  · intro kv hkv
    fin_cases hkv <;> simp
  · intro xs txt
    cases xs with
    | nil => rfl
    | cons x rest =>
      change (match extractTitles ((x :: rest).take 5) with
        | none => NewsResult.keyError
        | some titles => NewsResult.ok (String.intercalate "\n" titles)) =
        (match extractTitles (((x :: rest).take 5).take 5) with
        | none => NewsResult.keyError
        | some titles => NewsResult.ok (String.intercalate "\n" titles))
      rw [List.take_take]
      norm_num

/-- Witness for C5 (amended): with seven concrete items, the digest equals
the one computed from the first five alone. -/
theorem C5_amended_request_shape_witness :
    newsRequestParams "т" "к" = [("language", "ru"), ("keywords", "т"), ("apiKey", "к")] ∧
    get_recent_news (HttpOutcome.response 200
        (NewsField.items [item "A", item "B", item "C", item "D", item "E", item "F", item "G"]) "") =
      get_recent_news (HttpOutcome.response 200
        (NewsField.items [item "A", item "B", item "C", item "D", item "E"]) "") := by
  have h := C5_amended_request_shape "т" "к"
  exact ⟨h.1, h.2.2 [item "A", item "B", item "C", item "D", item "E", item "F", item "G"] ""⟩

/-- The news HTTP call failed: a non-success status or a raised
`requests.RequestException` (timeout, transport error). -/
def newsCallFails : HttpOutcome → Prop
  | .response status _ _ => status ≠ 200
  | .requestException _ => True

/-- C1 counterexample: at a concrete provider failure (a timeout raised as
`requests.RequestException`), the news lookup does not return a sentinel
digest — it raises an `HTTPException`; the pipeline does not continue (no
generation request is issued) and the failure reaches the caller as an
error. -/
theorem C1_counterexample :
    (¬ ∃ s, get_recent_news (HttpOutcome.requestException "timeout") = NewsResult.ok s) ∧
    generate_content stubSvc (HttpOutcome.requestException "timeout") "тема" =
      (Except.error (PyError.httpException 500 "Ошибка запроса к Currents API: timeout"), []) := by
  constructor
  · rintro ⟨s, hs⟩
    simp [get_recent_news] at hs
  · rfl

/-- C1 (amended): when the news call fails (non-success status, timeout or
transport exception), `get_recent_news` raises an `HTTPException` with
status 500, which propagates out of `generate_content` unchanged: the
pipeline does not continue to the generation steps (no generation request
is issued) and the caller receives the failure as a server error. -/
theorem C1_amended_news_failure_propagates (svc : GenRequest → GenOutcome)
    (topic : String) (o : HttpOutcome) (h : newsCallFails o) :
    ∃ d, get_recent_news o = NewsResult.httpError d ∧
      generate_content svc o topic = (Except.error (PyError.httpException 500 d), []) := by
  cases o with
  | requestException e =>
    exact ⟨"Ошибка запроса к Currents API: " ++ e, rfl, rfl⟩
  | response status body txt =>
    have hs : status ≠ 200 := h
    have hnews : get_recent_news (HttpOutcome.response status body txt) =
        NewsResult.httpError ("Ошибка при получении данных: " ++ txt) := by
      simp [get_recent_news, hs]
    exact ⟨"Ошибка при получении данных: " ++ txt, hnews, by
      simp [generate_content, hnews]⟩

/-- Witness for C1 (amended): a concrete 500 response from the provider. -/
theorem C1_amended_news_failure_propagates_witness :
    ∃ d, get_recent_news (HttpOutcome.response 500 NewsField.missing "err") =
        NewsResult.httpError d ∧
      generate_content stubSvc (HttpOutcome.response 500 NewsField.missing "err") "т" =
        (Except.error (PyError.httpException 500 d), []) :=
  C1_amended_news_failure_propagates stubSvc "т"
    (HttpOutcome.response 500 NewsField.missing "err") (by decide : (500 : Nat) ≠ 200)

/-- C2: when the news lookup returned a digest, a generation-service
failure at any of the three steps aborts the whole call with a single
`HTTPException(500, ...)` wrapping the underlying cause: a step-1 failure
issues no request for steps 2 or 3; a step-3 failure (after steps 1 and 2
produced values) still yields an error, discarding the title and
meta-description; and a returned `GeneratedArticle` only ever arises from
three successful calls, with all three fields populated from them. -/
theorem C2_generation_failure_policy (svc : GenRequest → GenOutcome)
    (o : HttpOutcome) (topic digest : String)
    (hok : get_recent_news o = NewsResult.ok digest) :
    (∀ e, svc (titleRequest topic digest) = GenOutcome.failure e →
      generate_content svc o topic =
        (Except.error (PyError.httpException 500 (GEN_ERROR_PREFIX ++ e)),
         [titleRequest topic digest])) ∧
    (∀ t1 e, svc (titleRequest topic digest) = GenOutcome.success t1 →
      svc (metaRequest (strip t1)) = GenOutcome.failure e →
      generate_content svc o topic =
        (Except.error (PyError.httpException 500 (GEN_ERROR_PREFIX ++ e)),
         [titleRequest topic digest, metaRequest (strip t1)])) ∧
    (∀ t1 t2 e, svc (titleRequest topic digest) = GenOutcome.success t1 →
      svc (metaRequest (strip t1)) = GenOutcome.success t2 →
      svc (contentRequest topic digest) = GenOutcome.failure e →
      generate_content svc o topic =
        (Except.error (PyError.httpException 500 (GEN_ERROR_PREFIX ++ e)),
         [titleRequest topic digest, metaRequest (strip t1), contentRequest topic digest])) ∧
    (∀ a, (generate_content svc o topic).1 = Except.ok a →
      ∃ t1 t2 t3,
        svc (titleRequest topic digest) = GenOutcome.success t1 ∧
        svc (metaRequest (strip t1)) = GenOutcome.success t2 ∧
        svc (contentRequest topic digest) = GenOutcome.success t3 ∧
        a = ⟨strip t1, strip t2, strip t3⟩) := by
  refine ⟨?_, ?_, ?_, ?_⟩
  · intro e h1
    simp [generate_content, hok, h1]
  · intro t1 e h1 h2
    simp [generate_content, hok, h1, h2]
  · intro t1 t2 e h1 h2 h3
    simp [generate_content, hok, h1, h2, h3]
  · intro a ha
    cases h1 : svc (titleRequest topic digest) with
    | failure e => simp [generate_content, hok, h1] at ha
    | success t1 =>
      cases h2 : svc (metaRequest (strip t1)) with
      | failure e => simp [generate_content, hok, h1, h2] at ha
      | success t2 =>
        cases h3 : svc (contentRequest topic digest) with
        | failure e => simp [generate_content, hok, h1, h2, h3] at ha
        | success t3 =>
          simp [generate_content, hok, h1, h2, h3] at ha
          exact ⟨t1, t2, t3, rfl, h2, rfl, ha.symm⟩

/-- Witness for C2: a service failing on every request makes the pipeline
abort after the single step-1 request. -/
theorem C2_generation_failure_policy_witness :
    generate_content failSvc (HttpOutcome.response 200 (NewsField.items []) "") "т" =
      (Except.error (PyError.httpException 500 (GEN_ERROR_PREFIX ++ "сбой")),
       [titleRequest "т" NO_NEWS_SENTINEL]) :=
  (C2_generation_failure_policy failSvc
    (HttpOutcome.response 200 (NewsField.items []) "") "т" NO_NEWS_SENTINEL rfl).1 "сбой" rfl

/-- C4: in any run that reaches them, the second issued request is
`metaRequest` applied to the trimmed title — the generated title is its
only topic-derived input, as `metaPrompt` is a function of the title alone
— and the third issued request is `contentRequest` applied to the topic
and the news digest — `contentPrompt` takes neither the title nor the
meta-description as input. -/
theorem C4_prompt_dependencies (svc : GenRequest → GenOutcome)
    (o : HttpOutcome) (topic digest t1 t2 : String)
    (hok : get_recent_news o = NewsResult.ok digest)
    (h1 : svc (titleRequest topic digest) = GenOutcome.success t1)
    (h2 : svc (metaRequest (strip t1)) = GenOutcome.success t2) :
    (generate_content svc o topic).2[1]? = some (metaRequest (strip t1)) ∧
    (generate_content svc o topic).2[2]? = some (contentRequest topic digest) ∧
    (metaRequest (strip t1)).content = metaPrompt (strip t1) ∧
    (contentRequest topic digest).content = contentPrompt topic digest := by
  cases h3 : svc (contentRequest topic digest) with
  | failure e =>
    refine ⟨?_, ?_, rfl, rfl⟩ <;> simp [generate_content, hok, h1, h2, h3]
  | success t3 =>
    refine ⟨?_, ?_, rfl, rfl⟩ <;> simp [generate_content, hok, h1, h2, h3]

/-- Witness for C4 at a concrete run with the stub service. -/
theorem C4_prompt_dependencies_witness :
    (generate_content stubSvc (HttpOutcome.response 200 (NewsField.items [item "A"]) "") "т").2[1]? =
      some (metaRequest "t1") ∧
    (generate_content stubSvc (HttpOutcome.response 200 (NewsField.items [item "A"]) "") "т").2[2]? =
      some (contentRequest "т" "A") := by
  have h := C4_prompt_dependencies stubSvc
    (HttpOutcome.response 200 (NewsField.items [item "A"]) "") "т" "A" " t1 " " t2 "
    rfl rfl rfl
  exact ⟨h.1, h.2.1⟩

/-- C6: the parameters of the three generation requests built by the code:
step 1 has a 20-token budget (within the specified 20–60 range),
temperature 0.5 and stops at the first newline; step 2 has a 60-token
budget (within 60–120), temperature 0.5 and stops at the first period;
step 3 has a 2000-token budget, temperature 0.3, positive (0.6) presence
and frequency penalties and no stop marker. -/
theorem C6_generation_parameters (topic recent_news title : String) :
    ((titleRequest topic recent_news).max_tokens = 20 ∧
     20 ≤ (titleRequest topic recent_news).max_tokens ∧
     (titleRequest topic recent_news).max_tokens ≤ 60 ∧
     (titleRequest topic recent_news).temperature = 1/2 ∧
     (titleRequest topic recent_news).stop = some ["\n"]) ∧
    ((metaRequest title).max_tokens = 60 ∧
     60 ≤ (metaRequest title).max_tokens ∧
     (metaRequest title).max_tokens ≤ 120 ∧
     (metaRequest title).temperature = 1/2 ∧
     (metaRequest title).stop = some ["."]) ∧
    ((contentRequest topic recent_news).max_tokens = 2000 ∧
     (contentRequest topic recent_news).temperature = 3/10 ∧
     (contentRequest topic recent_news).presence_penalty = some (3/5) ∧
     (contentRequest topic recent_news).frequency_penalty = some (3/5) ∧
     (0 : ℚ) < 3/5 ∧
     (contentRequest topic recent_news).stop = none) := by
  refine ⟨⟨rfl, ?_, ?_, rfl, rfl⟩, ⟨rfl, ?_, ?_, rfl, rfl⟩, rfl, rfl, rfl, rfl, ?_, rfl⟩ <;>
    norm_num [titleRequest, metaRequest]

/-- C7: if either API key is absent from the environment, the module-level
startup check fails with a `ValueError` — the process refuses to start
before serving any request. -/
theorem C7_missing_keys_refuse_start (env : Env)
    (h : env.openai_api_key = Option.none ∨ env.currentsapi_key = Option.none) :
    startupCheck env = Except.error
      "Переменные окружения OPENAI_API_KEY и CURRENTS_API_KEY должны быть установлены" := by
  cases h with
  | inl h => simp [startupCheck, pyFalsyStr, h]
  | inr h => simp [startupCheck, pyFalsyStr, h]

/-- Witness for C7: a missing OpenAI key refuses startup. -/
theorem C7_missing_keys_refuse_start_witness :
    startupCheck ⟨Option.none, Option.some "к"⟩ = Except.error
      "Переменные окружения OPENAI_API_KEY и CURRENTS_API_KEY должны быть установлены" :=
  C7_missing_keys_refuse_start ⟨Option.none, Option.some "к"⟩ (Or.inl rfl)

/-- C8: each step's raw output is trimmed of leading and trailing
whitespace before use: the returned article's three fields are the trimmed
step outputs, and the step-2 request already receives the trimmed title in
its prompt. -/
theorem C8_outputs_trimmed (svc : GenRequest → GenOutcome) (o : HttpOutcome)
    (topic digest t1 t2 t3 : String)
    (hok : get_recent_news o = NewsResult.ok digest)
    (h1 : svc (titleRequest topic digest) = GenOutcome.success t1)
    (h2 : svc (metaRequest (strip t1)) = GenOutcome.success t2)
    (h3 : svc (contentRequest topic digest) = GenOutcome.success t3) :
    generate_content svc o topic =
      (Except.ok { title := strip t1, meta_description := strip t2, post_content := strip t3 },
       [titleRequest topic digest, metaRequest (strip t1), contentRequest topic digest]) := by
  simp [generate_content, hok, h1, h2, h3]

/-- Witness for C8: the stub service's padded outputs come back trimmed. -/
theorem C8_outputs_trimmed_witness :
    generate_content stubSvc (HttpOutcome.response 200 (NewsField.items [item "A"]) "") "т" =
      (Except.ok { title := "t1", meta_description := "t2", post_content := "t3" },
       [titleRequest "т" "A", metaRequest "t1", contentRequest "т" "A"]) :=
  C8_outputs_trimmed stubSvc (HttpOutcome.response 200 (NewsField.items [item "A"]) "")
    "т" "A" " t1 " " t2 " " t3 " rfl rfl rfl rfl

end GenPost
